import Mathlib

/-!
Shallow embedding of the thermofeel-rs thermal-index engine (src/lib.rs and
src/helpers.rs) over the real numbers, together with theorems settling the
spec claims.  Each Rust `f64` value is modelled as a real number, Rust
`Option<f64>` as `Option ℝ`, and the `panic!` in `calculate_utci` as an
explicit `UtciResult.panicked` outcome.
-/

noncomputable section

namespace Thermofeel

/-- Embedding of `helpers.rs::celsius_to_kelvin`. -/
def celsius_to_kelvin (tc : ℝ) : ℝ := tc + 273.15

/-- Embedding of `helpers.rs::kelvin_to_celsius`. -/
def kelvin_to_celsius (tk : ℝ) : ℝ := tk - 273.15

/-- Embedding of `helpers.rs::kelvin_to_fahrenheit`. -/
def kelvin_to_fahrenheit (tk : ℝ) : ℝ := (tk - 273.15) * 9.0 / 5.0 + 32.0

/-- Embedding of `helpers.rs::fahrenheit_to_celsius`. -/
def fahrenheit_to_celsius (tf : ℝ) : ℝ := (tf - 32.0) * 5.0 / 9.0

/-- Embedding of `helpers.rs::fahrenheit_to_kelvin`. -/
def fahrenheit_to_kelvin (tf : ℝ) : ℝ := (tf + 459.67) * 5.0 / 9.0

/-- Embedding of `lib.rs::calculate_relative_humidity_percent`
(the `println!` debug output carries no value and is dropped). -/
def calculate_relative_humidity_percent (t2_k td_k : ℝ) : ℝ :=
  let t2_c := kelvin_to_celsius t2_k
  let td_c := kelvin_to_celsius td_k
  let es := 6.11 * (10 : ℝ) ^ (7.5 * t2_c / (237.3 + t2_c))
  let e := 6.11 * (10 : ℝ) ^ (7.5 * td_c / (237.3 + td_c))
  (e / es) * 100.0

/-- Embedding of `lib.rs::calculate_saturation_vapour_pressure`;
the loop `for i in 0..7 { ess += g[i] * t2_k.powi(i - 2) }` is unrolled. -/
def calculate_saturation_vapour_pressure (t2_k : ℝ) : ℝ :=
  let g0 : ℝ := -2.8365744e3
  let g1 : ℝ := -6.028076559e3
  let g2 : ℝ := 1.954263612e1
  let g3 : ℝ := -2.737830188e-2
  let g4 : ℝ := 1.6261698e-5
  let g5 : ℝ := 7.0229056e-10
  let g6 : ℝ := -1.8680009e-13
  let g7 : ℝ := 2.7150305
  let ess := g7 * Real.log t2_k
    + g0 * t2_k ^ (-2 : ℤ) + g1 * t2_k ^ (-1 : ℤ) + g2 * t2_k ^ (0 : ℤ)
    + g3 * t2_k ^ (1 : ℤ) + g4 * t2_k ^ (2 : ℤ) + g5 * t2_k ^ (3 : ℤ)
    + g6 * t2_k ^ (4 : ℤ)
  Real.exp ess * 0.01

/-- Embedding of `lib.rs::scale_windspeed`. -/
def scale_windspeed (va h : ℝ) : ℝ :=
  let target_height : ℝ := 10.0
  let c := 1.0 / Real.logb 10 (target_height / 0.01)
  va * Real.logb 10 (h / 0.01) * c

/-- Embedding of `lib.rs::approximate_dsrp`. -/
def approximate_dsrp (fdir cossza : ℝ) : Option ℝ :=
  if cossza ≤ 0.1 then none else some (fdir / cossza)

/-- Embedding of `lib.rs::calculate_heat_index_simplified`;
the local `hiarray` coefficients are written inline. -/
def calculate_heat_index_simplified (t2_k rh : ℝ) : Option ℝ :=
  let t2_c := kelvin_to_celsius t2_k
  if t2_c ≤ 20.0 then none
  else
    let hi := -8.784695 + 1.61139411 * t2_c + 2.338549 * rh
      - 0.14611605 * t2_c * rh
      - 1.2308094e-2 * t2_c ^ 2
      - 1.6424828e-2 * rh ^ 2
      + 2.211732e-3 * t2_c ^ 2 * rh
      + 7.2546e-4 * t2_c * rh ^ 2
      - 3.582e-6 * t2_c ^ 2 * rh ^ 2
    some (celsius_to_kelvin hi)


/-- Embedding of `lib.rs::calculate_heat_index_adjusted`; the `hiarray`
coefficients are written inline and the mutable `hi` update is expressed
as an `Option`-valued cascade followed by the final Fahrenheit-to-Kelvin
conversion, exactly matching the control flow of the source. -/
def calculate_heat_index_adjusted (t2_k td_k : ℝ) : Option ℝ :=
  let rh := calculate_relative_humidity_percent t2_k td_k
  let t2_f := kelvin_to_fahrenheit t2_k
  let hi_initial := 0.5 * (t2_f + 61.0 + (t2_f - 68.0) * 1.2 + rh * 0.094)
  let hi := -42.379 + 2.04901523 * t2_f + 10.1433312 * rh
    - 0.22475541 * t2_f * rh
    - 0.00683783 * t2_f ^ 2
    - 0.05481717 * rh ^ 2
    + 0.00122874 * t2_f ^ 2 * rh
    + 0.00085282 * t2_f * rh ^ 2
    - 0.00000199 * t2_f ^ 2 * rh ^ 2
  let hiAdj : Option ℝ :=
    if 80.0 < t2_f ∧ t2_f < 112.0 ∧ rh ≤ 13.0 then
      some (hi - (13.0 - rh) / 4.0 * Real.sqrt (17.0 - |t2_f - 95.0| / 17.0))
    else if 80.0 < t2_f ∧ t2_f < 87.0 ∧ 85.0 < rh then
      some (hi + (rh - 85.0) / 10.0 * ((87.0 - t2_f) / 5.0))
    else if t2_f < 80.0 then
      some (0.5 * (t2_f + 61.0 + (t2_f - 68.0) * 1.2 + rh * 0.094))
    else if hi_initial + t2_f / 2.0 < 80.0 then
      some (0.5 * (t2_f + 61.0 + (t2_f - 68.0) * 1.2 + rh * 0.094))
    else none
  hiAdj.map fahrenheit_to_kelvin

/-- Regime cascade for the adjusted heat index as the spec lists it
(section 4.8): identical to the source except that the fourth branch
compares `(regression_result + T_F)/2` with 80. -/
def heat_index_adjusted_spec_listed (t2_k td_k : ℝ) : Option ℝ :=
  let rh := calculate_relative_humidity_percent t2_k td_k
  let t2_f := kelvin_to_fahrenheit t2_k
  let regression := -42.379 + 2.04901523 * t2_f + 10.1433312 * rh
    - 0.22475541 * t2_f * rh
    - 0.00683783 * t2_f ^ 2
    - 0.05481717 * rh ^ 2
    + 0.00122874 * t2_f ^ 2 * rh
    + 0.00085282 * t2_f * rh ^ 2
    - 0.00000199 * t2_f ^ 2 * rh ^ 2
  let simple := 0.5 * (t2_f + 61.0 + (t2_f - 68.0) * 1.2 + rh * 0.094)
  if 80.0 < t2_f ∧ t2_f < 112.0 ∧ rh ≤ 13.0 then
    some (fahrenheit_to_kelvin (regression
      - (13.0 - rh) / 4.0 * Real.sqrt (17.0 - |t2_f - 95.0| / 17.0)))
  else if 80.0 < t2_f ∧ t2_f < 87.0 ∧ 85.0 < rh then
    some (fahrenheit_to_kelvin (regression
      + (rh - 85.0) / 10.0 * ((87.0 - t2_f) / 5.0)))
  else if t2_f < 80.0 then
    some (fahrenheit_to_kelvin simple)
  else if (regression + t2_f) / 2.0 < 80.0 then
    some (fahrenheit_to_kelvin simple)
  else none

/-- Regime cascade for the adjusted heat index with the fourth branch as
the source has it: `hi_initial + T_F/2 < 80`, where `hi_initial` is the
simple average-based estimate computed before any correction. -/
def heat_index_adjusted_amended (t2_k td_k : ℝ) : Option ℝ :=
  let rh := calculate_relative_humidity_percent t2_k td_k
  let t2_f := kelvin_to_fahrenheit t2_k
  let regression := -42.379 + 2.04901523 * t2_f + 10.1433312 * rh
    - 0.22475541 * t2_f * rh
    - 0.00683783 * t2_f ^ 2
    - 0.05481717 * rh ^ 2
    + 0.00122874 * t2_f ^ 2 * rh
    + 0.00085282 * t2_f * rh ^ 2
    - 0.00000199 * t2_f ^ 2 * rh ^ 2
  let simple := 0.5 * (t2_f + 61.0 + (t2_f - 68.0) * 1.2 + rh * 0.094)
  if 80.0 < t2_f ∧ t2_f < 112.0 ∧ rh ≤ 13.0 then
    some (fahrenheit_to_kelvin (regression
      - (13.0 - rh) / 4.0 * Real.sqrt (17.0 - |t2_f - 95.0| / 17.0)))
  else if 80.0 < t2_f ∧ t2_f < 87.0 ∧ 85.0 < rh then
    some (fahrenheit_to_kelvin (regression
      + (rh - 85.0) / 10.0 * ((87.0 - t2_f) / 5.0)))
  else if t2_f < 80.0 then
    some (fahrenheit_to_kelvin simple)
  else if simple + t2_f / 2.0 < 80.0 then
    some (fahrenheit_to_kelvin simple)
  else none

/-- Exponent offset used to build a dew point whose derived relative
humidity is exactly 25 %. -/
def hiaC : ℝ := 6000 / 7919 + Real.logb 10 (1 / 4)

/-- Air temperature whose Fahrenheit conversion is exactly 80 °F. -/
def hiaT2 : ℝ := celsius_to_kelvin (80 / 3)

/-- Dew point at which the Magnus-derived relative humidity against
`hiaT2` is exactly 25 %. -/
def hiaTd : ℝ := celsius_to_kelvin (237.3 * hiaC / (7.5 - hiaC))

/-- Embedding of `lib.rs::calculate_bgt` (the Rust shadows `q` when
re-deriving it; the shadowing is kept). -/
def calculate_bgt (t2_k mrt va : ℝ) : ℝ :=
  let v := scale_windspeed va 1.1
  let d := 1.1e8 * v ^ (0.6 : ℝ) / (0.95 * (0.15 : ℝ) ^ (0.4 : ℝ))
  let e := -(mrt ^ 4) - d * t2_k
  let q : ℝ := 12.0 * e
  let s := 27.0 * d ^ 2
  let delta := ((s + Real.sqrt (s ^ 2 - 4.0 * q ^ 3)) / 2.0) ^ ((1.0 : ℝ) / 3.0)
  let q := 0.5 * Real.sqrt (1.0 / 3.0 * (delta + q / delta));
  -q + 0.5 * Real.sqrt (-4.0 * q ^ 2 + d / q)

/-- Embedding of `lib.rs::calculate_mrt_from_bgt`. -/
def calculate_mrt_from_bgt (t2_k bgt_k va : ℝ) : ℝ :=
  let v := scale_windspeed va 1.1
  let f := 1.1e8 * v ^ (0.6 : ℝ) / (0.95 * (0.15 : ℝ) ^ (0.4 : ℝ))
  let bgt4 := bgt_k ^ 4
  let mrtc := bgt4 + f * (bgt_k - t2_k)
  Real.sqrt (Real.sqrt mrtc)

/-- The wind speed rescaled to 1.1 m is positive for positive 10 m wind. -/
lemma scale_windspeed_pos {va : ℝ} (hva : 0 < va) :
    0 < scale_windspeed va 1.1 := by
  simp only [scale_windspeed]
  have h110 : (0 : ℝ) < Real.logb 10 (1.1 / 0.01) := by
    rw [show (1.1 / 0.01 : ℝ) = 110 by norm_num]
    exact Real.logb_pos (by norm_num) (by norm_num)
  have h1000 : (0 : ℝ) < Real.logb 10 (10.0 / 0.01) := by
    rw [show (10.0 / 0.01 : ℝ) = 1000 by norm_num]
    exact Real.logb_pos (by norm_num) (by norm_num)
  exact mul_pos (mul_pos hva h110) (div_pos (by norm_num) h1000)

/-- Polynomial core of the Cardano step: if `b` satisfies
`4·a·b² = −4·a³ + d` and `m = 4·a²` satisfies the resolvent cubic
`m³ = d² + 4·e·m`, then `−a + b` is a root of `x⁴ + d·x + e`. -/
lemma quartic_root_algebra (a b d e : ℝ) (ha : a ≠ 0)
    (hb : 4 * a * b ^ 2 = -(4 * a ^ 3) + d)
    (hm : (4 * a ^ 2) ^ 3 = d ^ 2 + 4 * e * (4 * a ^ 2)) :
    (-a + b) ^ 4 + d * (-a + b) + e = 0 := by
  have h16 : (16 : ℝ) * a ^ 2 * ((-a + b) ^ 4 + d * (-a + b) + e) = 0 := by
    linear_combination (4*a*b^2 - 16*a^2*b + 20*a^3 + d) * hb - hm
  have h16ne : (16 : ℝ) * a ^ 2 ≠ 0 := by positivity
  exact (mul_eq_zero.mp h16).resolve_left h16ne

/-- The Cardano-style chain used by `calculate_bgt` produces a real root of
the depressed quartic `x⁴ + d·x + e` whenever `d > 0 > e`. -/
lemma cardano_quartic_root (d e q s delta q2 x : ℝ)
    (hd : 0 < d) (he : e < 0)
    (hq : q = 12.0 * e)
    (hs : s = 27.0 * d ^ 2)
    (hdelta : delta = ((s + Real.sqrt (s ^ 2 - 4.0 * q ^ 3)) / 2.0) ^ ((1.0 : ℝ) / 3.0))
    (hq2 : q2 = 0.5 * Real.sqrt (1.0 / 3.0 * (delta + q / delta)))
    (hx : x = -q2 + 0.5 * Real.sqrt (-4.0 * q2 ^ 2 + d / q2)) :
    x ^ 4 + d * x + e = 0 := by
  have hqneg : q < 0 := by rw [hq]; linarith
  have hspos : 0 < s := by rw [hs]; positivity
  have hq3 : q ^ 3 < 0 := Odd.pow_neg (by decide) hqneg
  have hdisc : (0 : ℝ) ≤ s ^ 2 - 4.0 * q ^ 3 := by nlinarith [sq_nonneg s]
  have hr2 : Real.sqrt (s ^ 2 - 4.0 * q ^ 3) ^ 2 = s ^ 2 - 4.0 * q ^ 3 :=
    Real.sq_sqrt hdisc
  have hrnn : (0 : ℝ) ≤ Real.sqrt (s ^ 2 - 4.0 * q ^ 3) := Real.sqrt_nonneg _
  have hDpos : (0 : ℝ) < (s + Real.sqrt (s ^ 2 - 4.0 * q ^ 3)) / 2.0 := by
    have hsum : (0 : ℝ) < s + Real.sqrt (s ^ 2 - 4.0 * q ^ 3) := by linarith
    norm_num
    linarith
  have hdeltapos : 0 < delta := by
    rw [hdelta]; exact Real.rpow_pos_of_pos hDpos _
  have hdeltane : delta ≠ 0 := hdeltapos.ne'
  have hdelta3 : delta ^ 3 = (s + Real.sqrt (s ^ 2 - 4.0 * q ^ 3)) / 2.0 := by
    rw [hdelta, ← Real.rpow_natCast
      (((s + Real.sqrt (s ^ 2 - 4.0 * q ^ 3)) / 2.0) ^ ((1.0 : ℝ) / 3.0)) 3,
      ← Real.rpow_mul hDpos.le]
    norm_num
  have hquad : delta ^ 3 * delta ^ 3 - s * delta ^ 3 + q ^ 3 = 0 := by
    rw [hdelta3]; linear_combination (1 / 4 : ℝ) * hr2
  have hD2 : -q < delta ^ 2 := by
    have h1 : (-q) ^ 3 < (delta ^ 2) ^ 3 := by
      nlinarith [hquad, mul_pos hspos (pow_pos hdeltapos 3)]
    exact lt_of_pow_lt_pow_left₀ 3 (sq_nonneg delta) h1
  have hM : (0 : ℝ) < 1.0 / 3.0 * (delta + q / delta) := by
    have hnum : (0 : ℝ) < delta ^ 2 + q := by linarith
    have hform : (1.0 : ℝ) / 3.0 * (delta + q / delta)
        = (delta ^ 2 + q) / (3 * delta) := by
      field_simp; ring
    rw [hform]
    exact div_pos hnum (by linarith)
  have hq2pos : 0 < q2 := by
    rw [hq2]; exact mul_pos (by norm_num) (Real.sqrt_pos.mpr hM)
  have hq2ne : q2 ≠ 0 := hq2pos.ne'
  have hq2sq : 4 * q2 ^ 2 = 1.0 / 3.0 * (delta + q / delta) := by
    rw [hq2, mul_pow, Real.sq_sqrt hM.le]; ring
  have hMd : 4 * q2 ^ 2 * (3 * delta) = delta ^ 2 + q := by
    rw [hq2sq]; field_simp; ring
  have hmul : (4 * q2 ^ 2) ^ 3 * (27 * delta ^ 3)
      = (d ^ 2 + 4 * e * (4 * q2 ^ 2)) * (27 * delta ^ 3) := by
    linear_combination
      (9 * (4 * q2 ^ 2) ^ 2 * delta ^ 2
        + 3 * (4 * q2 ^ 2) * delta * (delta ^ 2 + q)
        + (delta ^ 2 + q) ^ 2 - 36 * e * delta ^ 2) * hMd
      + hquad + 3 * delta ^ 2 * (delta ^ 2 + q) * hq + delta ^ 3 * hs
  have h27ne : (27 : ℝ) * delta ^ 3 ≠ 0 :=
    ne_of_gt (mul_pos (by norm_num) (pow_pos hdeltapos 3))
  have hres : (4 * q2 ^ 2) ^ 3 = d ^ 2 + 4 * e * (4 * q2 ^ 2) :=
    mul_right_cancel₀ h27ne hmul
  have h64 : (4 * q2 ^ 2) ^ 3 < d ^ 2 := by
    have hsq : (0 : ℝ) < 4 * q2 ^ 2 := by positivity
    have hneg : 4 * e * (4 * q2 ^ 2) < 0 :=
      mul_neg_of_neg_of_pos (by linarith) hsq
    rw [hres]; linarith
  have h8 : 8 * q2 ^ 3 < d := by
    have h2 : (8 * q2 ^ 3) ^ 2 < d ^ 2 := by
      have hcube : (8 * q2 ^ 3) ^ 2 = (4 * q2 ^ 2) ^ 3 := by ring
      rw [hcube]; exact h64
    exact lt_of_pow_lt_pow_left₀ 2 hd.le h2
  have hinner : (0 : ℝ) ≤ -4.0 * q2 ^ 2 + d / q2 := by
    have h4 : 4 * q2 ^ 2 < d / q2 := by
      rw [lt_div_iff₀ hq2pos]
      have h43 : 4 * q2 ^ 2 * q2 = 4 * q2 ^ 3 := by ring
      rw [h43]
      have := pow_pos hq2pos 3
      linarith
    linarith [h4]
  have hB2 : (0.5 * Real.sqrt (-4.0 * q2 ^ 2 + d / q2)) ^ 2
      = 0.25 * (-4.0 * q2 ^ 2 + d / q2) := by
    rw [mul_pow, Real.sq_sqrt hinner]; norm_num
  have hb : 4 * q2 * (0.5 * Real.sqrt (-4.0 * q2 ^ 2 + d / q2)) ^ 2
      = -(4 * q2 ^ 3) + d := by
    rw [hB2]; field_simp; ring
  rw [hx]
  exact quartic_root_algebra q2 (0.5 * Real.sqrt (-4.0 * q2 ^ 2 + d / q2))
    d e hq2ne hb hres

/-- `calculate_bgt` solves the radiative-equilibrium quartic
`g⁴ + d·g = mrt⁴ + d·t2` with `d` the wind-dependent convective
coefficient. -/
lemma calculate_bgt_quartic (t2_k mrt va : ℝ)
    (ht2 : 0 < t2_k) (hmrt : 0 ≤ mrt) (hva : 0 < va) :
    calculate_bgt t2_k mrt va ^ 4
      + (1.1e8 * scale_windspeed va 1.1 ^ (0.6 : ℝ)
          / (0.95 * (0.15 : ℝ) ^ (0.4 : ℝ))) * calculate_bgt t2_k mrt va
      + (-(mrt ^ 4) - (1.1e8 * scale_windspeed va 1.1 ^ (0.6 : ℝ)
          / (0.95 * (0.15 : ℝ) ^ (0.4 : ℝ))) * t2_k) = 0 := by
  have hv : 0 < scale_windspeed va 1.1 := scale_windspeed_pos hva
  have hd : 0 < 1.1e8 * scale_windspeed va 1.1 ^ (0.6 : ℝ)
      / (0.95 * (0.15 : ℝ) ^ (0.4 : ℝ)) :=
    div_pos (mul_pos (by norm_num) (Real.rpow_pos_of_pos hv _))
      (mul_pos (by norm_num) (Real.rpow_pos_of_pos (by norm_num) _))
  have he : -(mrt ^ 4) - (1.1e8 * scale_windspeed va 1.1 ^ (0.6 : ℝ)
      / (0.95 * (0.15 : ℝ) ^ (0.4 : ℝ))) * t2_k < 0 := by
    nlinarith [pow_nonneg hmrt 4, mul_pos hd ht2]
  exact cardano_quartic_root _ _ _ _ _ _ _ hd he rfl rfl rfl rfl rfl

/-- C6: feeding the computed black-globe temperature back into the inverse
recovers the original mean radiant temperature; over the reals the
composition is exact, so the error is below the 1e-3 K bound. -/
theorem bgt_mrt_roundtrip (t2_k mrt va : ℝ)
    (ht2 : 0 < t2_k) (hmrt : 0 ≤ mrt) (hva : 0 < va) :
    |calculate_mrt_from_bgt t2_k (calculate_bgt t2_k mrt va) va - mrt| < 1e-3 := by
  have hquartic := calculate_bgt_quartic t2_k mrt va ht2 hmrt hva
  have hmrtc : calculate_mrt_from_bgt t2_k (calculate_bgt t2_k mrt va) va
      = Real.sqrt (Real.sqrt (calculate_bgt t2_k mrt va ^ 4
        + (1.1e8 * scale_windspeed va 1.1 ^ (0.6 : ℝ)
            / (0.95 * (0.15 : ℝ) ^ (0.4 : ℝ)))
          * (calculate_bgt t2_k mrt va - t2_k))) := rfl
  have hinner : calculate_bgt t2_k mrt va ^ 4
      + (1.1e8 * scale_windspeed va 1.1 ^ (0.6 : ℝ)
          / (0.95 * (0.15 : ℝ) ^ (0.4 : ℝ)))
        * (calculate_bgt t2_k mrt va - t2_k) = mrt ^ 4 := by
    linear_combination hquartic
  rw [hmrtc, hinner, show mrt ^ 4 = (mrt ^ 2) ^ 2 by ring,
    Real.sqrt_sq (sq_nonneg mrt), Real.sqrt_sq hmrt]
  norm_num

/-- C6 witness: the round trip at the concrete input
`(t2_k, mrt, va) = (300 K, 310 K, 2 m/s)`. -/
theorem bgt_mrt_roundtrip_witness :
    (0 : ℝ) < 300 ∧ (0 : ℝ) ≤ 310 ∧ (0 : ℝ) < 2 ∧
      |calculate_mrt_from_bgt 300 (calculate_bgt 300 310 2) 2 - 310| < 1e-3 :=
  ⟨by norm_num, by norm_num, by norm_num,
    bgt_mrt_roundtrip 300 310 2 (by norm_num) (by norm_num) (by norm_num)⟩


/-- Embedding of `lib.rs::calculate_utci_polynomial` (the ~210-term Brode
et al. (2012) regression; coefficients transcribed verbatim). -/
def calculate_utci_polynomial (t2m mrt va wvp : ℝ) : ℝ :=
  let e_mrt := mrt - t2m
  let t2m2 := t2m * t2m
  let t2m3 := t2m2 * t2m
  let t2m4 := t2m3 * t2m
  let t2m5 := t2m4 * t2m
  let t2m6 := t2m5 * t2m
  let va2 := va * va
  let va3 := va2 * va
  let va4 := va3 * va
  let va5 := va4 * va
  let va6 := va5 * va
  let e_mrt2 := e_mrt * e_mrt
  let e_mrt3 := e_mrt2 * e_mrt
  let e_mrt4 := e_mrt3 * e_mrt
  let e_mrt5 := e_mrt4 * e_mrt
  let e_mrt6 := e_mrt5 * e_mrt
  let wvp2 := wvp * wvp
  let wvp3 := wvp2 * wvp
  let wvp4 := wvp3 * wvp
  let wvp5 := wvp4 * wvp
  let wvp6 := wvp5 * wvp
  let varh2 := va * wvp2
  let va2_rh := va2 * wvp
  let va2_e_mrt := va2 * e_mrt
  let e_mrt_rh := e_mrt * wvp
  let e_mrt_rh2 := e_mrt * wvp2
  let e_mrt2_rh := e_mrt2 * wvp
  let e_mrt2_rh2 := e_mrt2 * wvp2
  let e_mrt_rh3 := e_mrt * wvp3
  let va_e_mrt := va * e_mrt
  let va_e_mrt2 := va * e_mrt2
  let va_rh := va * wvp
  let t2m_va := t2m * va
  let e_mrt3_rh := e_mrt3 * wvp
  let e_mrt4_rh := e_mrt4 * wvp
  t2m
    + 6.07562052e-01
    + -2.27712343e-02 * t2m
    + 8.06470249e-04 * t2m2
    + -1.54271372e-04 * t2m3
    + -3.24651735e-06 * t2m4
    + 7.32602852e-08 * t2m5
    + 1.35959073e-09 * t2m6
    + -2.25836520e00 * va
    + 8.80326035e-02 * t2m * va
    + 2.16844454e-03 * t2m2 * va
    + -1.53347087e-05 * t2m3 * va
    + -5.72983704e-07 * t2m4 * va
    + -2.55090145e-09 * t2m5 * va
    + -7.51269505e-01 * va2
    + -4.08350271e-03 * t2m * va2
    + -5.21670675e-05 * t2m2 * va2
    + 1.94544667e-06 * t2m3 * va2
    + 1.14099531e-08 * t2m4 * va2
    + 1.58137256e-01 * va3
    + -6.57263143e-05 * t2m * va3
    + 2.22697524e-07 * t2m2 * va3
    + -4.16117031e-08 * t2m3 * va3
    + -1.27762753e-02 * va4
    + 9.66891875e-06 * t2m * va4
    + 2.52785852e-09 * t2m2 * va4
    + 4.56306672e-04 * va5
    + -1.74202546e-07 * t2m * va5
    + -5.91491269e-06 * va6
    + 3.98374029e-01 * e_mrt
    + 1.83945314e-04 * t2m * e_mrt
    + -1.73754510e-04 * t2m2 * e_mrt
    + -7.60781159e-07 * t2m3 * e_mrt
    + 3.77830287e-08 * t2m4 * e_mrt
    + 5.43079673e-10 * t2m5 * e_mrt
    + -2.00518269e-02 * va_e_mrt
    + 8.92859837e-04 * t2m * va_e_mrt
    + 3.45433048e-06 * t2m2 * va_e_mrt
    + -3.77925774e-07 * t2m3 * va_e_mrt
    + -1.69699377e-09 * t2m4 * va_e_mrt
    + 1.69992415e-04 * va2_e_mrt
    + -4.99204314e-05 * t2m * va2_e_mrt
    + 2.47417178e-07 * t2m2 * va2_e_mrt
    + 1.07596466e-08 * t2m3 * va2_e_mrt
    + 8.49242932e-05 * va3 * e_mrt
    + 1.35191328e-06 * t2m * va3 * e_mrt
    + -6.21531254e-09 * t2m2 * va3 * e_mrt
    + -4.99410301e-06 * va4 * e_mrt
    + -1.89489258e-08 * t2m * va4 * e_mrt
    + 8.15300114e-08 * va5 * e_mrt
    + 7.55043090e-04 * e_mrt2
    + -5.65095215e-05 * t2m * e_mrt2
    + -4.52166564e-07 * t2m2 * e_mrt2
    + 2.46688878e-08 * t2m3 * e_mrt2
    + 2.42674348e-10 * t2m4 * e_mrt2
    + 1.54547250e-04 * va_e_mrt2
    + 5.24110970e-06 * t2m * va_e_mrt2
    + -8.75874982e-08 * t2m2 * va_e_mrt2
    + -1.50743064e-09 * t2m3 * va_e_mrt2
    + -1.56236307e-05 * va2 * e_mrt2
    + -1.33895614e-07 * t2m * va2 * e_mrt2
    + 2.49709824e-09 * t2m2 * va2 * e_mrt2
    + 6.51711721e-07 * va3 * e_mrt2
    + 1.94960053e-09 * t2m * va3 * e_mrt2
    + -1.00361113e-08 * va4 * e_mrt2
    + -1.21206673e-05 * e_mrt3
    + -2.18203660e-07 * t2m * e_mrt3
    + 7.51269482e-09 * t2m2 * e_mrt3
    + 9.79063848e-11 * t2m3 * e_mrt3
    + 1.25006734e-06 * va * e_mrt3
    + -1.81584736e-09 * t2m_va * e_mrt3
    + -3.52197671e-10 * t2m2 * va * e_mrt3
    + -3.36514630e-08 * va2 * e_mrt3
    + 1.35908359e-10 * t2m * va2 * e_mrt3
    + 4.17032620e-10 * va3 * e_mrt3
    + -1.30369025e-09 * e_mrt4
    + 4.13908461e-10 * t2m * e_mrt4
    + 9.22652254e-12 * t2m2 * e_mrt4
    + -5.08220384e-09 * va * e_mrt4
    + -2.24730961e-11 * t2m_va * e_mrt4
    + 1.17139133e-10 * va2 * e_mrt4
    + 6.62154879e-10 * e_mrt5
    + 4.03863260e-13 * t2m * e_mrt5
    + 1.95087203e-12 * va * e_mrt5
    + -4.73602469e-12 * e_mrt6
    + 5.12733497e00 * wvp
    + -3.12788561e-01 * t2m * wvp
    + -1.96701861e-02 * t2m2 * wvp
    + 9.99690870e-04 * t2m3 * wvp
    + 9.51738512e-06 * t2m4 * wvp
    + -4.66426341e-07 * t2m5 * wvp
    + 5.48050612e-01 * va_rh
    + -3.30552823e-03 * t2m * va_rh
    + -1.64119440e-03 * t2m2 * va_rh
    + -5.16670694e-06 * t2m3 * va_rh
    + 9.52692432e-07 * t2m4 * va_rh
    + -4.29223622e-02 * va2_rh
    + 5.00845667e-03 * t2m * va2_rh
    + 1.00601257e-06 * t2m2 * va2_rh
    + -1.81748644e-06 * t2m3 * va2_rh
    + -1.25813502e-03 * va3 * wvp
    + -1.79330391e-04 * t2m * va3 * wvp
    + 2.34994441e-06 * t2m2 * va3 * wvp
    + 1.29735808e-04 * va4 * wvp
    + 1.29064870e-06 * t2m * va4 * wvp
    + -2.28558686e-06 * va5 * wvp
    + -3.69476348e-02 * e_mrt_rh
    + 1.62325322e-03 * t2m * e_mrt_rh
    + -3.14279680e-05 * t2m2 * e_mrt_rh
    + 2.59835559e-06 * t2m3 * e_mrt_rh
    + -4.77136523e-08 * t2m4 * e_mrt_rh
    + 8.64203390e-03 * va * e_mrt_rh
    + -6.87405181e-04 * t2m_va * e_mrt_rh
    + -9.13863872e-06 * t2m2 * va * e_mrt_rh
    + 5.15916806e-07 * t2m3 * va * e_mrt_rh
    + -3.59217476e-05 * va2 * e_mrt_rh
    + 3.28696511e-05 * t2m * va2 * e_mrt_rh
    + -7.10542454e-07 * t2m2 * va2 * e_mrt_rh
    + -1.24382300e-05 * va3 * e_mrt_rh
    + -7.38584400e-09 * t2m * va3 * e_mrt_rh
    + 2.20609296e-07 * va4 * e_mrt_rh
    + -7.32469180e-04 * e_mrt2_rh
    + -1.87381964e-05 * t2m * e_mrt2_rh
    + 4.80925239e-06 * t2m2 * e_mrt2_rh
    + -8.75492040e-08 * t2m3 * e_mrt2_rh
    + 2.77862930e-05 * va * e_mrt2_rh
    + -5.06004592e-06 * t2m_va * e_mrt2_rh
    + 1.14325367e-07 * t2m2 * va * e_mrt2_rh
    + 2.53016723e-06 * va2 * e_mrt2_rh
    + -1.72857035e-08 * t2m * va2 * e_mrt2_rh
    + -3.95079398e-08 * va3 * e_mrt2_rh
    + -3.59413173e-07 * e_mrt3_rh
    + 7.04388046e-07 * t2m * e_mrt3_rh
    + -1.89309167e-08 * t2m2 * e_mrt3_rh
    + -4.79768731e-07 * va * e_mrt3_rh
    + 7.96079978e-09 * t2m_va * e_mrt3_rh
    + 1.62897058e-09 * va2 * e_mrt3_rh
    + 3.94367674e-08 * e_mrt4_rh
    + -1.18566247e-09 * t2m * e_mrt4_rh
    + 3.34678041e-10 * va * e_mrt4_rh
    + -1.15606447e-10 * e_mrt5 * wvp
    + -2.80626406e00 * wvp2
    + 5.48712484e-01 * t2m * wvp2
    + -3.99428410e-03 * t2m2 * wvp2
    + -9.54009191e-04 * t2m3 * wvp2
    + 1.93090978e-05 * t2m4 * wvp2
    + -3.08806365e-01 * varh2
    + 1.16952364e-02 * t2m * varh2
    + 4.95271903e-04 * t2m2 * varh2
    + -1.90710882e-05 * t2m3 * varh2
    + 2.10787756e-03 * va2 * wvp2
    + -6.98445738e-04 * t2m * va2 * wvp2
    + 2.30109073e-05 * t2m2 * va2 * wvp2
    + 4.17856590e-04 * va3 * wvp2
    + -1.27043871e-05 * t2m * va3 * wvp2
    + -3.04620472e-06 * va4 * wvp2
    + 5.14507424e-02 * e_mrt_rh2
    + -4.32510997e-03 * t2m * e_mrt_rh2
    + 8.99281156e-05 * t2m2 * e_mrt_rh2
    + -7.14663943e-07 * t2m3 * e_mrt_rh2
    + -2.66016305e-04 * va * e_mrt_rh2
    + 2.63789586e-04 * t2m_va * e_mrt_rh2
    + -7.01199003e-06 * t2m2 * va * e_mrt_rh2
    + -1.06823306e-04 * va2 * e_mrt_rh2
    + 3.61341136e-06 * t2m * va2 * e_mrt_rh2
    + 2.29748967e-07 * va3 * e_mrt_rh2
    + 3.04788893e-04 * e_mrt2_rh2
    + -6.42070836e-05 * t2m * e_mrt2_rh2
    + 1.16257971e-06 * t2m2 * e_mrt2_rh2
    + 7.68023384e-06 * va * e_mrt2_rh2
    + -5.47446896e-07 * t2m_va * e_mrt2_rh2
    + -3.59937910e-08 * va2 * e_mrt2_rh2
    + -4.36497725e-06 * e_mrt3 * wvp2
    + 1.68737969e-07 * t2m * e_mrt3 * wvp2
    + 2.67489271e-08 * va * e_mrt3 * wvp2
    + 3.23926897e-09 * e_mrt4 * wvp2
    + -3.53874123e-02 * wvp3
    + -2.21201190e-01 * t2m * wvp3
    + 1.55126038e-02 * t2m2 * wvp3
    + -2.63917279e-04 * t2m3 * wvp3
    + 4.53433455e-02 * va * wvp3
    + -4.32943862e-03 * t2m_va * wvp3
    + 1.45389826e-04 * t2m2 * va * wvp3
    + 2.17508610e-04 * va2 * wvp3
    + -6.66724702e-05 * t2m * va2 * wvp3
    + 3.33217140e-05 * va3 * wvp3
    + -2.26921615e-03 * e_mrt_rh3
    + 3.80261982e-04 * t2m * e_mrt_rh3
    + -5.45314314e-09 * t2m2 * e_mrt_rh3
    + -7.96355448e-04 * va * e_mrt_rh3
    + 2.53458034e-05 * t2m_va * e_mrt_rh3
    + -6.31223658e-06 * va2 * e_mrt_rh3
    + 3.02122035e-04 * e_mrt2 * wvp3
    + -4.77403547e-06 * t2m * e_mrt2 * wvp3
    + 1.73825715e-06 * va * e_mrt2 * wvp3
    + -4.09087898e-07 * e_mrt3 * wvp3
    + 6.14155345e-01 * wvp4
    + -6.16755931e-02 * t2m * wvp4
    + 1.33374846e-03 * t2m2 * wvp4
    + 3.55375387e-03 * va * wvp4
    + -5.13027851e-04 * t2m_va * wvp4
    + 1.02449757e-04 * va2 * wvp4
    + -1.48526421e-03 * e_mrt * wvp4
    + -4.11469183e-05 * t2m * e_mrt * wvp4
    + -6.80434415e-06 * va * e_mrt * wvp4
    + -9.77675906e-06 * e_mrt2 * wvp4
    + 8.82773108e-02 * wvp5
    + -3.01859306e-03 * t2m * wvp5
    + 1.04452989e-03 * va * wvp5
    + 2.47090539e-04 * e_mrt * wvp5
    + 1.48348065e-03 * wvp6

/-- Outcome of `lib.rs::calculate_utci`: a numeric result, or the
`panic!` abort on missing humidity inputs. -/
inductive UtciResult where
  | value (v : ℝ) : UtciResult
  | panicked (msg : String) : UtciResult
  deriving DecidableEq

/-- Embedding of `lib.rs::calculate_utci`.  The Rust function first resolves
the water vapour pressure `wvp` from the optional inputs (aborting via
`panic!` when both are `None`), then evaluates the polynomial; the `panic!`
is modelled as the explicit `UtciResult.panicked` outcome. -/
def calculate_utci (t2_k va mrt : ℝ) (td_k eh_pa : Option ℝ) : UtciResult :=
  let wvpResolved : Option ℝ :=
    match eh_pa with
    | some eh_pa => some (eh_pa / 10.0)
    | none =>
      match td_k with
      | some td_k =>
        let rh_pc := calculate_relative_humidity_percent t2_k td_k
        let eh_pa := calculate_saturation_vapour_pressure t2_k * rh_pc / 100.0
        some (eh_pa / 10.0)
      | none => none
  match wvpResolved with
  | none => UtciResult.panicked "Missing input ehPa or td_k"
  | some wvp =>
    let t2_c := kelvin_to_celsius t2_k
    let mrt_c := kelvin_to_celsius mrt
    let utci := calculate_utci_polynomial t2_c mrt_c va wvp
    UtciResult.value (celsius_to_kelvin utci)

end Thermofeel

namespace Thermofeel

/-- C8: each temperature unit conversion composed with its inverse is the
identity (exact over the reals, hence within floating-point epsilon). -/
theorem conversion_round_trips (T : ℝ) :
    kelvin_to_celsius (celsius_to_kelvin T) = T
    ∧ celsius_to_kelvin (kelvin_to_celsius T) = T
    ∧ fahrenheit_to_kelvin (kelvin_to_fahrenheit T) = T
    ∧ kelvin_to_fahrenheit (fahrenheit_to_kelvin T) = T
    ∧ celsius_to_kelvin (fahrenheit_to_celsius (kelvin_to_fahrenheit T)) = T := by
  unfold kelvin_to_celsius celsius_to_kelvin fahrenheit_to_kelvin
    kelvin_to_fahrenheit fahrenheit_to_celsius
  refine ⟨by ring, by ring, by ring, by ring, by ring⟩

/-- C3: `approximate_dsrp fdir cossza` is `none` exactly when
`cossza ≤ 0.1`, returns `some (fdir / cossza)` above the threshold, and in
particular is `none` at `cossza = 0.1` and `some (fdir / 0.4)` at
`cossza = 0.4`. -/
theorem approximate_dsrp_guard (fdir cossza : ℝ) :
    (approximate_dsrp fdir cossza = none ↔ cossza ≤ 0.1)
    ∧ (0.1 < cossza → approximate_dsrp fdir cossza = some (fdir / cossza))
    ∧ approximate_dsrp fdir 0.1 = none
    ∧ approximate_dsrp fdir 0.4 = some (fdir / 0.4) := by
  unfold approximate_dsrp
  refine ⟨?_, ?_, ?_, ?_⟩
  · by_cases h : cossza ≤ 0.1 <;> simp [h]
  · intro h
    rw [if_neg (not_le.mpr h)]
  · norm_num
  · norm_num

/-- C3 witness: the guarded branch of `approximate_dsrp` at the concrete
input `(5, 0.5)`. -/
theorem approximate_dsrp_guard_witness :
    (0.1 : ℝ) < 0.5 ∧ approximate_dsrp 5 0.5 = some ((5 : ℝ) / 0.5) :=
  ⟨by norm_num, (approximate_dsrp_guard 5 0.5).2.1 (by norm_num)⟩

/-- C4: `calculate_heat_index_simplified` is `none` exactly when the
Celsius-converted temperature is at most 20 °C, otherwise returns the fixed
9-coefficient polynomial (converted back to Kelvin); in particular it is
`none` at exactly 20 °C and defined at 20.0001 °C. -/
theorem heat_index_simplified_guard (t2_k rh : ℝ) :
    (calculate_heat_index_simplified t2_k rh = none ↔ kelvin_to_celsius t2_k ≤ 20)
    ∧ (20 < kelvin_to_celsius t2_k →
        calculate_heat_index_simplified t2_k rh =
          some (celsius_to_kelvin (-8.784695 + 1.61139411 * kelvin_to_celsius t2_k
            + 2.338549 * rh
            - 0.14611605 * kelvin_to_celsius t2_k * rh
            - 1.2308094e-2 * kelvin_to_celsius t2_k ^ 2
            - 1.6424828e-2 * rh ^ 2
            + 2.211732e-3 * kelvin_to_celsius t2_k ^ 2 * rh
            + 7.2546e-4 * kelvin_to_celsius t2_k * rh ^ 2
            - 3.582e-6 * kelvin_to_celsius t2_k ^ 2 * rh ^ 2)))
    ∧ calculate_heat_index_simplified (celsius_to_kelvin 20.0) rh = none
    ∧ (calculate_heat_index_simplified (celsius_to_kelvin 20.0001) rh).isSome = true := by
  refine ⟨?_, ?_, ?_, ?_⟩
  · simp only [calculate_heat_index_simplified]
    by_cases h : kelvin_to_celsius t2_k ≤ 20 <;> simp [h] <;> linarith
  · intro h
    simp only [calculate_heat_index_simplified]
    rw [if_neg (by linarith)]
  · simp only [calculate_heat_index_simplified]
    rw [if_pos (by unfold kelvin_to_celsius celsius_to_kelvin; norm_num)]
  · simp only [calculate_heat_index_simplified]
    rw [if_neg (by unfold kelvin_to_celsius celsius_to_kelvin; norm_num)]
    simp

/-- C4 witness: the defined branch of `calculate_heat_index_simplified`
at the concrete input `(300 K, 50 %)`. -/
theorem heat_index_simplified_guard_witness :
    20 < kelvin_to_celsius 300 ∧
      calculate_heat_index_simplified 300 50 =
        some (celsius_to_kelvin (-8.784695 + 1.61139411 * kelvin_to_celsius 300
          + 2.338549 * 50
          - 0.14611605 * kelvin_to_celsius 300 * 50
          - 1.2308094e-2 * kelvin_to_celsius 300 ^ 2
          - 1.6424828e-2 * (50 : ℝ) ^ 2
          + 2.211732e-3 * kelvin_to_celsius 300 ^ 2 * 50
          + 7.2546e-4 * kelvin_to_celsius 300 * (50 : ℝ) ^ 2
          - 3.582e-6 * kelvin_to_celsius 300 ^ 2 * (50 : ℝ) ^ 2)) :=
  ⟨by unfold kelvin_to_celsius; norm_num,
    (heat_index_simplified_guard 300 50).2.1 (by unfold kelvin_to_celsius; norm_num)⟩

/-- C9: wind height scaling is the identity at the 10 m reference height:
`scale_windspeed va 10 = va` for every wind speed `va`. -/
theorem scale_windspeed_at_reference_height (va : ℝ) :
    scale_windspeed va 10 = va := by
  simp only [scale_windspeed]
  norm_num

/-- C10: saturated air reads exactly 100 % relative humidity: when the dew
point equals the air temperature (away from the Magnus singularity at
−237.3 °C), `calculate_relative_humidity_percent t t = 100`. -/
theorem relative_humidity_saturated (t : ℝ)
    (h : kelvin_to_celsius t ≠ -237.3) :
    calculate_relative_humidity_percent t t = 100 := by
  simp only [calculate_relative_humidity_percent]
  have hes : (0 : ℝ) <
      6.11 * (10 : ℝ) ^ (7.5 * kelvin_to_celsius t / (237.3 + kelvin_to_celsius t)) := by
    positivity
  rw [div_self hes.ne']
  norm_num

/-- Closed form of `calculate_saturation_vapour_pressure` with the integer
powers written as divisions, valid away from `t = 0`. -/
lemma satVP_eq (t : ℝ) (ht : t ≠ 0) : calculate_saturation_vapour_pressure t
    = Real.exp (2.7150305 * Real.log t
      - 2836.5744 / t ^ 2 - 6028.076559 / t + 19.54263612
      - 2.737830188e-2 * t + 1.6261698e-5 * t ^ 2 + 7.0229056e-10 * t ^ 3
      - 1.8680009e-13 * t ^ 4) * 0.01 := by
  simp only [calculate_saturation_vapour_pressure, zpow_neg, zpow_ofNat,
    zpow_one, zpow_zero]
  congr 1
  field_simp
  ring

/-- C7: `calculate_saturation_vapour_pressure` is strictly increasing on
the meteorological range 200 K to 330 K. -/
theorem saturation_vapour_pressure_strict_mono (t1 t2 : ℝ)
    (h200 : 200 ≤ t1) (h12 : t1 < t2) (h330 : t2 ≤ 330) :
    calculate_saturation_vapour_pressure t1
      < calculate_saturation_vapour_pressure t2 := by
  have ht1pos : (0 : ℝ) < t1 := by linarith
  have ht2pos : (0 : ℝ) < t2 := by linarith
  have ht1ne : t1 ≠ 0 := ht1pos.ne'
  have ht2ne : t2 ≠ 0 := ht2pos.ne'
  have hlog : Real.log t1 < Real.log t2 := Real.log_lt_log ht1pos h12
  have hA : 2836.5744 / t2 ^ 2 ≤ 2836.5744 / t1 ^ 2 :=
    div_le_div_of_nonneg_left (by norm_num) (by positivity) (by nlinarith)
  have hBeq : 6028.076559 / t1 - 6028.076559 / t2
      = 6028.076559 * ((t2 - t1) / (t1 * t2)) := by
    field_simp
    ring
  have ht1t2 : t1 * t2 ≤ 108900 := by
    nlinarith [mul_le_mul (show t1 ≤ 330 by linarith) h330 ht2pos.le
      (by norm_num : (0 : ℝ) ≤ 330)]
  have hB : 6028.076559 * ((t2 - t1) / 108900)
      ≤ 6028.076559 / t1 - 6028.076559 / t2 := by
    rw [hBeq]
    have hdivs : (t2 - t1) / 108900 ≤ (t2 - t1) / (t1 * t2) :=
      div_le_div_of_nonneg_left (by linarith) (by positivity) ht1t2
    nlinarith [hdivs]
  have hC : 400 * (t2 - t1) ≤ t2 ^ 2 - t1 ^ 2 := by nlinarith
  have hD : t1 ^ 3 ≤ t2 ^ 3 :=
    pow_le_pow_left₀ ht1pos.le h12.le 3
  have h14 : t1 ^ 3 ≤ 35937000 := by
    have := pow_le_pow_left₀ ht1pos.le (show t1 ≤ 330 by linarith) 3
    norm_num at this
    linarith
  have h24 : t2 ^ 3 ≤ 35937000 := by
    have := pow_le_pow_left₀ ht2pos.le h330 3
    norm_num at this
    linarith
  have hE : t2 ^ 4 - t1 ^ 4 ≤ 143748000 * (t2 - t1) := by
    nlinarith [mul_nonneg (show (0:ℝ) ≤ t2 - t1 by linarith)
      (show (0:ℝ) ≤ 143748000 - (t2^3 + t2^2*t1 + t2*t1^2 + t1^3) by nlinarith)]
  rw [satVP_eq t1 ht1ne, satVP_eq t2 ht2ne]
  have hexp : Real.exp (2.7150305 * Real.log t1
      - 2836.5744 / t1 ^ 2 - 6028.076559 / t1 + 19.54263612
      - 2.737830188e-2 * t1 + 1.6261698e-5 * t1 ^ 2 + 7.0229056e-10 * t1 ^ 3
      - 1.8680009e-13 * t1 ^ 4)
      < Real.exp (2.7150305 * Real.log t2
      - 2836.5744 / t2 ^ 2 - 6028.076559 / t2 + 19.54263612
      - 2.737830188e-2 * t2 + 1.6261698e-5 * t2 ^ 2 + 7.0229056e-10 * t2 ^ 3
      - 1.8680009e-13 * t2 ^ 4) := by
    apply Real.exp_lt_exp.mpr
    linarith [hlog, hA, hB, hC, hD, hE]
  exact mul_lt_mul_of_pos_right hexp (by norm_num)

/-- C7 witness: strict growth between the concrete temperatures
250 K and 300 K. -/
theorem saturation_vapour_pressure_strict_mono_witness :
    ((200 : ℝ) ≤ 250 ∧ (250 : ℝ) < 300 ∧ (300 : ℝ) ≤ 330) ∧
      calculate_saturation_vapour_pressure 250
        < calculate_saturation_vapour_pressure 300 :=
  ⟨⟨by norm_num, by norm_num, by norm_num⟩,
    saturation_vapour_pressure_strict_mono 250 300
      (by norm_num) (by norm_num) (by norm_num)⟩

lemma hiaC_lt : hiaC < 1 := by
  have hlogneg : Real.logb 10 (1 / 4) < 0 :=
    Real.logb_neg (by norm_num) (by norm_num) (by norm_num)
  simp only [hiaC]
  nlinarith

/-- At the constructed dew point the derived relative humidity is
exactly 25 %. -/
lemma hia_rh : calculate_relative_humidity_percent hiaT2 hiaTd = 25 := by
  have hCne : (7.5 : ℝ) - hiaC ≠ 0 := by
    have := hiaC_lt
    intro h
    nlinarith
  have htd_exp : 7.5 * (237.3 * hiaC / (7.5 - hiaC))
      / (237.3 + 237.3 * hiaC / (7.5 - hiaC)) = hiaC := by
    field_simp
    ring
  have hsplit : (10 : ℝ) ^ hiaC = (10 : ℝ) ^ ((6000 : ℝ) / 7919) * (1 / 4) := by
    have hC : hiaC = (6000 : ℝ) / 7919 + Real.logb 10 (1 / 4) := rfl
    rw [hC, Real.rpow_add (by norm_num : (0 : ℝ) < 10),
      Real.rpow_logb (by norm_num) (by norm_num) (by norm_num)]
  have hexp_es : 7.5 * (80 / 3) / (237.3 + 80 / 3) = (6000 : ℝ) / 7919 := by
    norm_num
  have hX : (10 : ℝ) ^ ((6000 : ℝ) / 7919) ≠ 0 :=
    (Real.rpow_pos_of_pos (by norm_num) _).ne'
  simp only [calculate_relative_humidity_percent, hiaT2, hiaTd,
    kelvin_to_celsius, celsius_to_kelvin, add_sub_cancel_right]
  rw [htd_exp, hexp_es, hsplit]
  field_simp
  ring

/-- The constructed air temperature converts to exactly 80 °F. -/
lemma hia_tf : kelvin_to_fahrenheit hiaT2 = 80 := by
  simp only [hiaT2, kelvin_to_fahrenheit, celsius_to_kelvin]
  norm_num

/-- C2 counterexample: at 80 °F and 25 % relative humidity the source's
fourth regime test (`hi_initial + T_F/2 < 80`) fails, so the code returns
`none`, while the claim's listed fourth branch
(`(regression_result + T_F)/2 < 80`) succeeds and yields the simple
average-based estimate — the claim is false as stated. -/
theorem heat_index_adjusted_branch_four_mismatch :
    calculate_heat_index_adjusted hiaT2 hiaTd = none
    ∧ heat_index_adjusted_spec_listed hiaT2 hiaTd
        = some (fahrenheit_to_kelvin 78.875)
    ∧ calculate_heat_index_adjusted hiaT2 hiaTd
        ≠ heat_index_adjusted_spec_listed hiaT2 hiaTd := by
  have h1 : calculate_heat_index_adjusted hiaT2 hiaTd = none := by
    simp only [calculate_heat_index_adjusted, hia_rh, hia_tf]
    norm_num
  have h2 : heat_index_adjusted_spec_listed hiaT2 hiaTd
      = some (fahrenheit_to_kelvin 78.875) := by
    simp only [heat_index_adjusted_spec_listed, hia_rh, hia_tf]
    norm_num
  exact ⟨h1, h2, by rw [h1, h2]; simp⟩

/-- C2 (amended): the regime corrections are applied in the listed order,
with the fourth branch reading `hi_initial + T_F/2 < 80` where
`hi_initial` is the simple average-based estimate. -/
theorem heat_index_adjusted_regimes (t2_k td_k : ℝ) :
    calculate_heat_index_adjusted t2_k td_k
      = heat_index_adjusted_amended t2_k td_k := by
  simp only [calculate_heat_index_adjusted, heat_index_adjusted_amended]
  split_ifs <;> rfl

/-- C1: `calculate_utci` aborts (Rust `panic!`, a process abort rather than
a recoverable error value) exactly when both optional humidity inputs are
`None`; whenever at least one of `td_k`, `eh_pa` is supplied it returns a
numeric result.  Evaluated at the failing input
`(300 K, 1 m/s, 310 K, None, None)`. -/
theorem utci_missing_humidity_panics :
    calculate_utci 300 1 310 none none
      = UtciResult.panicked "Missing input ehPa or td_k"
    ∧ (∀ t2_k va mrt, calculate_utci t2_k va mrt none none
        = UtciResult.panicked "Missing input ehPa or td_k")
    ∧ (∀ t2_k va mrt td_k, ∃ v,
        calculate_utci t2_k va mrt (some td_k) none = UtciResult.value v)
    ∧ (∀ t2_k va mrt td_k eh_pa, ∃ v,
        calculate_utci t2_k va mrt td_k (some eh_pa) = UtciResult.value v) := by
  refine ⟨rfl, fun _ _ _ => rfl, fun _ _ _ _ => ⟨_, rfl⟩, fun _ _ _ _ _ => ⟨_, rfl⟩⟩

/-- C5: the vapour pressure fed to the UTCI polynomial is `eh_pa / 10`
whenever `eh_pa` is supplied (regardless of `td_k`), and is the saturation
vapour pressure at `t2_k` times the derived relative humidity over 100,
divided by 10, when only `td_k` is supplied. -/
theorem utci_vapour_pressure_resolution (t2_k va mrt : ℝ) (td_k : Option ℝ)
    (eh_pa td : ℝ) :
    calculate_utci t2_k va mrt td_k (some eh_pa)
      = UtciResult.value (celsius_to_kelvin (calculate_utci_polynomial
          (kelvin_to_celsius t2_k) (kelvin_to_celsius mrt) va (eh_pa / 10.0)))
    ∧ calculate_utci t2_k va mrt (some td) none
      = UtciResult.value (celsius_to_kelvin (calculate_utci_polynomial
          (kelvin_to_celsius t2_k) (kelvin_to_celsius mrt) va
          (calculate_saturation_vapour_pressure t2_k *
            calculate_relative_humidity_percent t2_k td / 100.0 / 10.0))) :=
  ⟨rfl, rfl⟩

/-- C10 witness: saturation at the concrete temperature 300 K. -/
theorem relative_humidity_saturated_witness :
    kelvin_to_celsius 300 ≠ -237.3 ∧
      calculate_relative_humidity_percent 300 300 = 100 :=
  ⟨by unfold kelvin_to_celsius; norm_num,
    relative_humidity_saturated 300 (by unfold kelvin_to_celsius; norm_num)⟩

end Thermofeel
